import Mathlib

/-!
Shallow embedding of the FastAPI inventory service
(`src/models.py`, `src/database.py`, `src/app.py`).

The relational store is modelled as an explicit state (`StoreState`)
holding the rows of the `items` and `users` tables.  Each `Database`
method of `database.py` becomes a pure function from the state; methods
that mutate the store return the result together with the new state.
A raised `HTTPException(status_code, detail)` becomes
`Except.error (Failure.http status detail)`; an uncaught backend
(SQLAlchemy) exception becomes `Except.error (Failure.backend msg)`.
SQLite `Float`/`Integer` columns carry values that the code never
computes with (they are stored and compared verbatim), so `price` is
embedded as `Rat` and ids/stock as `Int`.  The passlib bcrypt primitive
is outside this repository; the functions that use it take the hash /
verify functions as parameters.
-/

namespace Inventory

/-- A row of the `items` table (`ItemModel` in `database.py`). -/
structure Item where
  id : Int
  name : String
  price : Rat
  description : Option String
  stock : Int
  category : Option String
deriving DecidableEq, Repr

/-- The pydantic `ItemSchema` payload of `models.py`: `id` is optional,
the remaining fields are as declared. -/
structure ItemSchema where
  id : Option Int
  name : String
  price : Rat
  description : Option String
  stock : Int
  category : Option String
deriving DecidableEq, Repr

/-- The field constraints pydantic enforces on `ItemSchema`
(`price : gt=0`, `stock : ge=0` in `models.py`). -/
def ItemSchema.okFields (p : ItemSchema) : Prop :=
  0 < p.price ∧ 0 ≤ p.stock

instance (p : ItemSchema) : Decidable p.okFields := by
  unfold ItemSchema.okFields; infer_instance

/-- A row of the `users` table (`UserModel` in `database.py`). -/
structure User where
  id : Int
  email : String
  hashed_password : String
deriving DecidableEq, Repr

/-- The pydantic `UserSchema` payload of `models.py`. -/
structure UserSchema where
  email : String
  password : String
deriving DecidableEq, Repr

/-- The body returned by the `/token` route on success. -/
structure Token where
  access_token : String
  token_type : String
deriving DecidableEq, Repr

/-- How an operation fails: `http` is a raised `HTTPException`
(typed failure mapped to an HTTP status); `backend` is a raw
SQLAlchemy/driver exception propagating uncaught. -/
inductive Failure where
  | http (status : Nat) (detail : String)
  | backend (msg : String)
deriving DecidableEq, Repr

/-- Stand-in text for a raw backend (SQLAlchemyError) exception. -/
def sqlErr : String := "SQLAlchemyError"

/-- The rows of the two tables, in insertion order. -/
structure StoreState where
  items : List Item
  users : List User
deriving DecidableEq, Repr

/-- The empty database (both tables empty). -/
def emptyStore : StoreState := ⟨[], []⟩

/-- Runs `SELECT * FROM items WHERE id = i` followed by `.first()`. -/
def StoreState.findItem (s : StoreState) (i : Int) : Option Item :=
  s.items.find? (fun it => it.id == i)

/-- Runs `SELECT * FROM users WHERE email = e` followed by `.first()`. -/
def StoreState.findUser (s : StoreState) (e : String) : Option User :=
  s.users.find? (fun u => u.email == e)

/-- Largest id currently in the `items` table (0 when empty). -/
def maxItemId (s : StoreState) : Int :=
  s.items.foldl (fun m it => max m it.id) 0

/-- The rowid SQLite assigns to a new `items` row when the INSERT does
not supply one: one more than the largest rowid in use. -/
def nextItemId (s : StoreState) : Int := maxItemId s + 1

/-- Largest id currently in the `users` table (0 when empty). -/
def maxUserId (s : StoreState) : Int :=
  s.users.foldl (fun m u => max m u.id) 0

/-- The rowid SQLite assigns to a new `users` row. -/
def nextUserId (s : StoreState) : Int := maxUserId s + 1

/-- Embeds `Database.create_item` (`database.py` 62–75): builds
`ItemModel(**item.dict())` — so the payload's `id`, when present, is
inserted verbatim — commits, and returns the persisted row.  A
duplicate explicit id makes the commit fail with an IntegrityError
(a `SQLAlchemyError`), which the `except` branch turns into a rolled
back session and `HTTPException(500)`. -/
def create_item (s : StoreState) (p : ItemSchema) :
    Except Failure Item × StoreState :=
  match p.id with
  | some i =>
      if (s.findItem i).isSome then
        (.error (.http 500 ("Error creating item: " ++ sqlErr)), s)
      else
        let it : Item := ⟨i, p.name, p.price, p.description, p.stock, p.category⟩
        (.ok it, ⟨s.items ++ [it], s.users⟩)
  | none =>
      let it : Item :=
        ⟨nextItemId s, p.name, p.price, p.description, p.stock, p.category⟩
      (.ok it, ⟨s.items ++ [it], s.users⟩)

/-- Embeds `Database.get_item` (`database.py` 77–84): select `.first()` —
which in Python may be `None` — raise 404 `if not item`, else return
it.  The result keeps the `Option` so that the callers' own
truthiness checks on the returned value can be stated. -/
def get_item (s : StoreState) (i : Int) : Except Failure (Option Item) :=
  let item := s.findItem i
  if item.isNone then .error (.http 404 "Item not found")
  else .ok item

/-- Embeds `Database.get_item_by_id` (`database.py` 114–118): select
`.first()`, returned as-is (possibly `None`), no exception. -/
def get_item_by_id (s : StoreState) (i : Int) : Option Item :=
  s.findItem i

/-- Embeds `Database.get_all_items` (`database.py` 86–95). -/
def get_all_items (s : StoreState) : Except Failure (List Item) :=
  .ok s.items

/-- Embeds `Database.update_item` (`database.py` 97–112): fetch via
`get_item_by_id`, raise 404 if absent, else overwrite the five mutable
fields with the payload's values, `add` + `commit` (an UPDATE of the
row with that primary key), and return the updated record. -/
def update_item (s : StoreState) (i : Int) (p : ItemSchema) :
    Except Failure Item × StoreState :=
  match get_item_by_id s i with
  | none => (.error (.http 404 "Item not found"), s)
  | some item =>
      let item' : Item :=
        { item with
          name := p.name, price := p.price, description := p.description,
          stock := p.stock, category := p.category }
      (.ok item',
       ⟨s.items.map (fun x => if x.id == item.id then item' else x), s.users⟩)

/-- Embeds `Database.delete_item` (`database.py` 120–128): call `get_item`
(which itself raises 404 when absent); then `if db_item:` delete the
row and return it, with a trailing 404 raise for the falsy case. -/
def delete_item (s : StoreState) (i : Int) :
    Except Failure (Option Item) × StoreState :=
  match get_item s i with
  | .error e => (.error e, s)
  | .ok db_item =>
      match db_item with
      | some it =>
          (.ok (some it), ⟨s.items.eraseP (fun x => x.id == it.id), s.users⟩)
      | none => (.error (.http 404 "Item not found"), s)

/-- Embeds `Database.clear_data` (`database.py` 48–54): `DELETE FROM` every
table. -/
def clear_data (_s : StoreState) : Except Failure Unit × StoreState :=
  (.ok (), emptyStore)

/-- Embeds `Database.get_user_by_email` (`database.py` 157–162): a lookup,
`None` when absent, no exception. -/
def get_user_by_email (s : StoreState) (e : String) : Option User :=
  s.findUser e

/-- Embeds `Database.create_user` (`database.py` 130–146): inside the `try`,
re-check the email (raising `HTTPException(400)`, which the
`except SQLAlchemyError` clause does not catch), else insert a row
whose `hashed_password` is `pwd_context.hash(password)`.  The bcrypt
primitive lives in passlib, outside this repository, so the hash
function is a parameter. -/
def create_user (hash : String → String) (s : StoreState) (u : UserSchema) :
    Except Failure User × StoreState :=
  match get_user_by_email s u.email with
  | some _ => (.error (.http 400 "Email already registered"), s)
  | none =>
      let nu : User := ⟨nextUserId s, u.email, hash u.password⟩
      (.ok nu, ⟨s.items, s.users ++ [nu]⟩)

/-- Embeds the `register` route (`app.py` 46–56): check `get_user_by_email`,
raise 400 if present, else `create_user` and return the created
`UserModel` row — the whole ORM object, serialized as the response
body (there is no `response_model` on the route). -/
def register (hash : String → String) (s : StoreState) (u : UserSchema) :
    Except Failure User × StoreState :=
  match get_user_by_email s u.email with
  | some _ => (.error (.http 400 "Email already registered"), s)
  | none => create_user hash s u

/-- Embeds the `login` route (`app.py` 60–70): 404 when the email is unknown,
401 when `verify_password` rejects, else a bearer token equal to the
stored user's email.  `verify_password` delegates to
`pwd_context.verify` (passlib), taken as a parameter. -/
def login (verify : String → String → Bool) (s : StoreState)
    (form : UserSchema) : Except Failure Token :=
  match get_user_by_email s form.email with
  | none => .error (.http 404 "User not found")
  | some user =>
      if verify form.password user.hashed_password then
        .ok ⟨user.email, "bearer"⟩
      else .error (.http 401 "Incorrect password")

/-- Embeds the `GET /items/\x7bitem_id\x7d` route (`app.py` 78–83): call
`database.get_item`, then `if not item: raise 404`, else return it. -/
def get_item_route (s : StoreState) (i : Int) : Except Failure Item :=
  match get_item s i with
  | .error e => .error e
  | .ok item =>
      match item with
      | none => .error (.http 404 "Item not found")
      | some it => .ok it

/-- Embeds the `DELETE /items/\x7bitem_id\x7d` route (`app.py` 99–104): call
`database.delete_item`, `if not deleted_item: raise 404`, else
respond 204. -/
def delete_item_route (s : StoreState) (i : Int) :
    Except Failure Nat × StoreState :=
  match delete_item s i with
  | (.error e, s') => (.error e, s')
  | (.ok deleted, s') =>
      if deleted.isNone then (.error (.http 404 "Item not found"), s')
      else (.ok 204, s')

/-!
Fault-injected variants.  `fault = true` means the backend raises a
`SQLAlchemyError` while the operation runs.  Operations whose body sits
in a `try`/`except SQLAlchemyError` block (`create_item`,
`get_all_items`, `create_user`) translate the fault into an
`HTTPException(500)` with the detail string the source builds there;
the other operations have no handler, so the exception propagates raw.
-/

/-- Models `create_item` under a backend fault: caught by its
`except SQLAlchemyError` clause → rollback + `HTTPException(500)`. -/
def create_itemF (fault : Bool) (s : StoreState) (p : ItemSchema) :
    Except Failure Item × StoreState :=
  if fault then (.error (.http 500 ("Error creating item: " ++ sqlErr)), s)
  else create_item s p

/-- Models `get_all_items` under a backend fault: caught → 500. -/
def get_all_itemsF (fault : Bool) (s : StoreState) :
    Except Failure (List Item) :=
  if fault then .error (.http 500 ("Database error: " ++ sqlErr))
  else get_all_items s

/-- Models `create_user` under a backend fault: caught → 500. -/
def create_userF (fault : Bool) (hash : String → String) (s : StoreState)
    (u : UserSchema) : Except Failure User × StoreState :=
  if fault then (.error (.http 500 "Could not create user"), s)
  else create_user hash s u

/-- Models `get_item` under a backend fault: no handler, the raw exception
propagates. -/
def get_itemF (fault : Bool) (s : StoreState) (i : Int) :
    Except Failure (Option Item) :=
  if fault then .error (.backend sqlErr) else get_item s i

/-- Models `update_item` under a backend fault: no handler, propagates raw. -/
def update_itemF (fault : Bool) (s : StoreState) (i : Int) (p : ItemSchema) :
    Except Failure Item × StoreState :=
  if fault then (.error (.backend sqlErr), s) else update_item s i p

/-- Models `delete_item` under a backend fault: no handler, propagates raw. -/
def delete_itemF (fault : Bool) (s : StoreState) (i : Int) :
    Except Failure (Option Item) × StoreState :=
  if fault then (.error (.backend sqlErr), s) else delete_item s i

/-- Models `clear_data` under a backend fault: no handler, propagates raw. -/
def clear_dataF (fault : Bool) (s : StoreState) :
    Except Failure Unit × StoreState :=
  if fault then (.error (.backend sqlErr), s) else clear_data s

/-- Whether a failure is one of the typed kinds the spec's taxonomy
names (an `HTTPException` carrying an HTTP status), as opposed to a
raw backend exception. -/
def Failure.typed : Failure → Bool
  | .http _ _ => true
  | .backend _ => false

/-- One item-mutating call, for stating the persistence invariant. -/
inductive Op where
  | createI (p : ItemSchema)
  | updateI (i : Int) (p : ItemSchema)
deriving DecidableEq, Repr

/-- The payload of the call passes pydantic's field validation. -/
def Op.okFields : Op → Prop
  | .createI p => p.okFields
  | .updateI _ p => p.okFields

/-- The state after one call (errors leave the state unchanged). -/
def applyOp (s : StoreState) : Op → StoreState
  | .createI p => (create_item s p).2
  | .updateI i p => (update_item s i p).2

/-- The state after a sequence of calls. -/
def applyOps (s : StoreState) (ops : List Op) : StoreState :=
  ops.foldl applyOp s

/-- Every persisted Item has `price > 0` and `stock >= 0`. -/
def itemsInvariant (s : StoreState) : Prop :=
  ∀ it ∈ s.items, 0 < it.price ∧ 0 ≤ it.stock

/-- No two rows of the `items` table share an id (`id` is the primary
key). -/
def distinctIds (s : StoreState) : Prop :=
  s.items.Pairwise (fun a b => a.id ≠ b.id)

/-- A concrete valid item payload with no client-supplied id. -/
def witnessPayload : ItemSchema := ⟨none, "Laptop", 5, none, 10, none⟩

/-- A concrete valid payload that supplies an explicit id of 42. -/
def payloadA : ItemSchema :=
  ⟨some 42, "Laptop", 5, some "A high-end laptop", 10, some "Electronics"⟩

/-- The same payload as `payloadA` except for the client-supplied id. -/
def payloadB : ItemSchema :=
  ⟨some 7, "Laptop", 5, some "A high-end laptop", 10, some "Electronics"⟩

/-- A concrete stand-in for the external bcrypt hash primitive, used
only to instantiate the hash parameter in closed statements. -/
def sampleHash (p : String) : String := "2b12salt" ++ p

/-- The matching stand-in for `pwd_context.verify`. -/
def sampleVerify (p hashed : String) : Bool := sampleHash p == hashed

/-- A concrete store holding one item row and one user row. -/
def sampleStore : StoreState :=
  ⟨[⟨1, "Laptop", 5, none, 10, none⟩], [⟨1, "a@b.com", sampleHash "x"⟩]⟩

/-! Helper lemmas about the list-level table model. -/

theorem le_foldl_max (l : List Item) (a : Int) :
    a ≤ l.foldl (fun m it => max m it.id) a := by
  induction l generalizing a with
  | nil => exact le_refl _
  | cons y ys ih => exact le_trans (le_max_left _ _) (ih _)

theorem foldl_max_le_of_mem {l : List Item} {a : Int} {x : Item}
    (hx : x ∈ l) : x.id ≤ l.foldl (fun m it => max m it.id) a := by
  induction l generalizing a with
  | nil => cases hx
  | cons y ys ih =>
      rcases List.mem_cons.mp hx with h | h
      · subst h
        exact le_trans (le_max_right a x.id) (le_foldl_max ys _)
      · exact ih h

theorem mem_le_maxItemId {s : StoreState} {x : Item} (hx : x ∈ s.items) :
    x.id ≤ maxItemId s :=
  foldl_max_le_of_mem hx

theorem find?_append_fresh {l : List Item} {j : Int} (it : Item)
    (h : ∀ x ∈ l, (x.id == j) = false) :
    (l ++ [it]).find? (fun x => x.id == j) =
      [it].find? (fun x => x.id == j) := by
  rw [List.find?_append]
  have hnone : l.find? (fun x => x.id == j) = none := by
    rw [List.find?_eq_none]
    intro x hx
    simp [h x hx]
  rw [hnone, Option.none_or]

theorem find?_map_overwrite {l : List Item} {i : Int} {item item' : Item}
    (h : l.find? (fun x => x.id == i) = some item)
    (hid : item'.id = item.id) :
    (l.map (fun x => if x.id == item.id then item' else x)).find?
      (fun x => x.id == i) = some item' := by
  have hi : item.id = i := by
    have := List.find?_some h
    exact of_decide_eq_true this
  induction l with
  | nil => simp at h
  | cons a l ih =>
      by_cases ha : (a.id == i) = true
      · have haeq : a = item := by
          simp only [List.find?_cons, ha] at h
          exact (Option.some.injEq _ _).mp h
        subst haeq
        simp only [List.map_cons]
        rw [if_pos (by simp)]
        simp only [List.find?_cons, show (item'.id == i) = true by
          simp [hid, hi]]
      · have ha' : (a.id == i) = false := by simpa using ha
        simp only [List.find?_cons, ha'] at h
        simp only [List.map_cons]
        rw [if_neg (by
          simp only [hi, beq_iff_eq]
          intro hc
          simp [hc] at ha')]
        simp only [List.find?_cons, ha']
        exact ih h

theorem find?_eraseP_of_pairwise {l : List Item} {i : Int} {it : Item}
    (h : l.find? (fun x => x.id == i) = some it)
    (hp : l.Pairwise (fun a b => a.id ≠ b.id)) :
    (l.eraseP (fun x => x.id == it.id)).find? (fun x => x.id == i) =
      none := by
  have hi : it.id = i := by
    have := List.find?_some h
    exact of_decide_eq_true this
  induction l with
  | nil => simp at h
  | cons a l ih =>
      rcases List.pairwise_cons.mp hp with ⟨hne, hp'⟩
      by_cases ha : (a.id == i) = true
      · have haeq : a = it := by
          simp only [List.find?_cons, ha] at h
          exact (Option.some.injEq _ _).mp h
        subst haeq
        rw [List.eraseP_cons_of_pos (by simp)]
        rw [List.find?_eq_none]
        intro x hx
        have hax := hne x hx
        simp only [beq_iff_eq]
        intro hc
        exact hax (by rw [hi, hc])
      · have ha' : (a.id == i) = false := by simpa using ha
        simp only [List.find?_cons, ha'] at h
        rw [List.eraseP_cons_of_neg (by
          simp only [hi, beq_iff_eq]
          intro hc
          simp [hc] at ha')]
        simp only [List.find?_cons, ha']
        exact ih h hp'

theorem get_item_append_self {l : List Item} {u : List User} (r : Item)
    (hfresh : ∀ x ∈ l, (x.id == r.id) = false) :
    get_item ⟨l ++ [r], u⟩ r.id = .ok (some r) := by
  have hfind : StoreState.findItem ⟨l ++ [r], u⟩ r.id = some r := by
    unfold StoreState.findItem
    show (l ++ [r]).find? (fun x => x.id == r.id) = some r
    rw [find?_append_fresh r hfresh]
    simp
  simp [get_item, hfind]

/-- C1: for every payload meeting the schema constraints, a successful
`create_item` followed by `get_item` on the returned record's id yields
that exact record, whose five content fields equal the payload's. -/
theorem spec_C1 (s : StoreState) (p : ItemSchema) (r : Item)
    (s' : StoreState) (_hok : p.okFields)
    (h : create_item s p = (.ok r, s')) :
    get_item s' r.id = .ok (some r) ∧ r.name = p.name ∧
    r.price = p.price ∧ r.description = p.description ∧
    r.stock = p.stock ∧ r.category = p.category := by
  cases hid : p.id with
  | some i =>
      simp only [create_item, hid] at h
      split at h
      · simp at h
      · next hf =>
          simp only [Prod.mk.injEq, Except.ok.injEq] at h
          obtain ⟨hr, hs⟩ := h
          subst hr
          subst hs
          refine ⟨?_, rfl, rfl, rfl, rfl, rfl⟩
          apply get_item_append_self
          intro x hx
          have hnone : s.findItem i = none := by
            cases hfi : s.findItem i with
            | none => rfl
            | some y => rw [hfi] at hf; simp at hf
          have hne := List.find?_eq_none.mp hnone x hx
          simpa using hne
  | none =>
      simp only [create_item, hid] at h
      simp only [Prod.mk.injEq, Except.ok.injEq] at h
      obtain ⟨hr, hs⟩ := h
      subst hr
      subst hs
      refine ⟨?_, rfl, rfl, rfl, rfl, rfl⟩
      apply get_item_append_self
      intro x hx
      have hle := mem_le_maxItemId hx
      have hne : x.id ≠ nextItemId s := by
        unfold nextItemId
        omega
      simpa using hne

/-- Closed instance of `spec_C1`: creating the sample payload in the
empty store and reading back id 1. -/
theorem spec_C1_witness :
    get_item ⟨[⟨1, "Laptop", 5, none, 10, none⟩], []⟩
        (Item.id ⟨1, "Laptop", 5, none, 10, none⟩) =
      .ok (some ⟨1, "Laptop", 5, none, 10, none⟩) ∧
    Item.name ⟨1, "Laptop", 5, none, 10, none⟩ = witnessPayload.name ∧
    Item.price ⟨1, "Laptop", 5, none, 10, none⟩ = witnessPayload.price ∧
    Item.description ⟨1, "Laptop", 5, none, 10, none⟩ =
      witnessPayload.description ∧
    Item.stock ⟨1, "Laptop", 5, none, 10, none⟩ = witnessPayload.stock ∧
    Item.category ⟨1, "Laptop", 5, none, 10, none⟩ =
      witnessPayload.category :=
  spec_C1 emptyStore witnessPayload ⟨1, "Laptop", 5, none, 10, none⟩
    ⟨[⟨1, "Laptop", 5, none, 10, none⟩], []⟩ (by decide) rfl

/-- C2: on an id with no persisted row, `update_item` and `delete_item`
both fail with the 404 `HTTPException` and leave the store unchanged;
and after a successful delete, a second delete of the same id fails
with the 404. -/
theorem spec_C2 (s : StoreState) (i : Int) (p : ItemSchema)
    (hd : distinctIds s) :
    (s.findItem i = none →
      update_item s i p = (.error (.http 404 "Item not found"), s) ∧
      delete_item s i = (.error (.http 404 "Item not found"), s)) ∧
    (∀ d s', delete_item s i = (.ok d, s') →
      delete_item s' i = (.error (.http 404 "Item not found"), s')) := by
  constructor
  · intro hnone
    constructor
    · simp [update_item, get_item_by_id, hnone]
    · simp [delete_item, get_item, hnone]
  · intro d s' hdel
    cases hfind : s.findItem i with
    | none => simp [delete_item, get_item, hfind] at hdel
    | some it =>
        have hfind' : s.items.find? (fun x => x.id == i) = some it := hfind
        simp only [delete_item, get_item, hfind, Option.isNone_some,
          Bool.false_eq_true, if_false, Prod.mk.injEq,
          Except.ok.injEq] at hdel
        obtain ⟨hd', hs'⟩ := hdel
        have hp : s.items.Pairwise (fun a b => a.id ≠ b.id) := hd
        have hnone := find?_eraseP_of_pairwise hfind' hp
        have hfind2 : StoreState.findItem s' i = none := by
          rw [← hs']
          exact hnone
        simp [delete_item, get_item, hfind2]

/-- Closed instance of `spec_C2`: deleting item 1 from the sample
store twice fails with 404 on the second call, and updating or
deleting the absent id 99 fails with 404. -/
theorem spec_C2_witness :
    (update_item sampleStore 99 witnessPayload =
      (.error (.http 404 "Item not found"), sampleStore) ∧
     delete_item sampleStore 99 =
      (.error (.http 404 "Item not found"), sampleStore)) ∧
    delete_item (⟨[], sampleStore.users⟩ : StoreState) 1 =
      (.error (.http 404 "Item not found"),
       (⟨[], sampleStore.users⟩ : StoreState)) :=
  ⟨(spec_C2 sampleStore 99 witnessPayload (by
      unfold distinctIds sampleStore
      simp)).1 rfl,
   (spec_C2 sampleStore 1 witnessPayload (by
      unfold distinctIds sampleStore
      simp)).2 (some ⟨1, "Laptop", 5, none, 10, none⟩)
     ⟨[], sampleStore.users⟩ rfl⟩

/-- C3: registering an email that already has a user always fails with
the 400 duplicate-email `HTTPException`, and the store (in particular
the user table) is unchanged. -/
theorem spec_C3 (hash : String → String) (s : StoreState)
    (e pw : String) (u : User) (hu : get_user_by_email s e = some u) :
    register hash s ⟨e, pw⟩ =
      (.error (.http 400 "Email already registered"), s) := by
  simp [register, hu]

/-- Closed instance of `spec_C3`: re-registering the sample store's
existing email fails with 400 and leaves the store intact. -/
theorem spec_C3_witness :
    register sampleHash sampleStore ⟨"a@b.com", "y"⟩ =
      (.error (.http 400 "Email already registered"), sampleStore) :=
  spec_C3 sampleHash sampleStore "a@b.com" "y"
    ⟨1, "a@b.com", sampleHash "x"⟩ rfl

/-- C4: `login` yields the 404 "User not found" `HTTPException` when
the email is unknown, the distinct 401 "Incorrect password" one when
the user exists but verification rejects, and on success the bearer
token whose `access_token` is the user's email. -/
theorem spec_C4 (verify : String → String → Bool) (s : StoreState)
    (form : UserSchema) :
    (get_user_by_email s form.email = none →
      login verify s form = .error (.http 404 "User not found")) ∧
    (∀ u, get_user_by_email s form.email = some u →
      verify form.password u.hashed_password = false →
      login verify s form = .error (.http 401 "Incorrect password")) ∧
    (∀ u, get_user_by_email s form.email = some u →
      verify form.password u.hashed_password = true →
      login verify s form = .ok ⟨u.email, "bearer"⟩) ∧
    Failure.http 404 "User not found" ≠
      Failure.http 401 "Incorrect password" := by
  refine ⟨fun h => by simp [login, h],
    fun u hu hv => by simp [login, hu, hv],
    fun u hu hv => by simp [login, hu, hv],
    by decide⟩

/-- Closed instance of `spec_C4`: on the sample store, a wrong
password for the registered email yields the 401 failure (and the 404
failure differs from it). -/
theorem spec_C4_witness :
    login sampleVerify sampleStore ⟨"a@b.com", "y"⟩ =
      .error (.http 401 "Incorrect password") :=
  (spec_C4 sampleVerify sampleStore ⟨"a@b.com", "y"⟩).2.1
    ⟨1, "a@b.com", sampleHash "x"⟩ rfl (by decide)

/-- C5 as stated is false: `create_item` builds the row from
`ItemModel(**item.dict())`, so a client-supplied id is persisted
verbatim.  Two payloads identical in every content field but differing
in their `id` field produce records with the two different
client-chosen ids. -/
theorem spec_C5_counterexample :
    payloadA.name = payloadB.name ∧ payloadA.price = payloadB.price ∧
    payloadA.description = payloadB.description ∧
    payloadA.stock = payloadB.stock ∧
    payloadA.category = payloadB.category ∧
    (create_item emptyStore payloadA).1 =
      .ok ⟨42, "Laptop", 5, some "A high-end laptop", 10,
           some "Electronics"⟩ ∧
    (create_item emptyStore payloadB).1 =
      .ok ⟨7, "Laptop", 5, some "A high-end laptop", 10,
           some "Electronics"⟩ ∧
    (42 : Int) ≠ 7 :=
  ⟨rfl, rfl, rfl, rfl, rfl, rfl, rfl, by decide⟩

/-- C5 amended: the id of a created record is server-generated (one
more than the largest id in use) only when the payload omits `id`;
when the payload supplies an id, the created record carries exactly
that client id. -/
theorem spec_C5_amended (s : StoreState) (p : ItemSchema) (r : Item)
    (s' : StoreState) (h : create_item s p = (.ok r, s')) :
    (p.id = none → r.id = nextItemId s) ∧
    ∀ i, p.id = some i → r.id = i := by
  constructor
  · intro hid
    simp only [create_item, hid, Prod.mk.injEq, Except.ok.injEq] at h
    obtain ⟨hr, _⟩ := h
    rw [← hr]
  · intro i hid
    simp only [create_item, hid] at h
    split at h
    · simp at h
    · simp only [Prod.mk.injEq, Except.ok.injEq] at h
      obtain ⟨hr, _⟩ := h
      rw [← hr]

/-- Closed instance of `spec_C5_amended`: creating `payloadA` (client
id 42) in the empty store gives a record with id 42, and `payloadA`
does not omit its id. -/
theorem spec_C5_amended_witness :
    (payloadA.id = none →
      Item.id ⟨42, "Laptop", 5, some "A high-end laptop", 10,
               some "Electronics"⟩ = nextItemId emptyStore) ∧
    ∀ i, payloadA.id = some i →
      Item.id ⟨42, "Laptop", 5, some "A high-end laptop", 10,
               some "Electronics"⟩ = i :=
  spec_C5_amended emptyStore payloadA
    ⟨42, "Laptop", 5, some "A high-end laptop", 10, some "Electronics"⟩
    ⟨[⟨42, "Laptop", 5, some "A high-end laptop", 10,
       some "Electronics"⟩], []⟩ rfl

/-- C6 fails on the code: the `register` route has no `response_model`
and returns the whole persisted `UserModel` row, so the response
body carries the `hashed_password` field (the stored hash of the
submitted password).  Evaluated at a concrete registration. -/
theorem spec_C6_bug :
    (register sampleHash emptyStore ⟨"a@b.com", "x"⟩).1 =
      .ok ⟨1, "a@b.com", sampleHash "x"⟩ ∧
    User.hashed_password ⟨1, "a@b.com", sampleHash "x"⟩ =
      sampleHash "x" ∧
    (register sampleHash emptyStore ⟨"a@b.com", "x"⟩).2.users =
      [⟨1, "a@b.com", sampleHash "x"⟩] :=
  ⟨rfl, rfl, rfl⟩

/-- C7: when the id exists, `update_item` overwrites the five mutable
fields with the payload's values, keeps the id, persists the change,
and a subsequent `get_item_by_id` returns the updated record. -/
theorem spec_C7 (s : StoreState) (i : Int) (p : ItemSchema) (it : Item)
    (hfound : get_item_by_id s i = some it) :
    update_item s i p =
      (.ok (⟨it.id, p.name, p.price, p.description, p.stock,
             p.category⟩ : Item),
       ⟨s.items.map (fun x => if x.id == it.id then
          (⟨it.id, p.name, p.price, p.description, p.stock,
            p.category⟩ : Item) else x), s.users⟩) ∧
    get_item_by_id (update_item s i p).2 i =
      some ⟨it.id, p.name, p.price, p.description, p.stock,
            p.category⟩ := by
  have h1 : update_item s i p =
      (.ok (⟨it.id, p.name, p.price, p.description, p.stock,
             p.category⟩ : Item),
       ⟨s.items.map (fun x => if x.id == it.id then
          (⟨it.id, p.name, p.price, p.description, p.stock,
            p.category⟩ : Item) else x), s.users⟩) := by
    simp only [update_item, hfound]
  refine ⟨h1, ?_⟩
  rw [h1]
  have hfind : s.items.find? (fun x => x.id == i) = some it := hfound
  exact find?_map_overwrite hfind rfl

/-- Closed instance of `spec_C7`: updating item 1 of the sample store
with `payloadA`'s content fields. -/
theorem spec_C7_witness :
    update_item sampleStore 1 payloadA =
      (.ok (⟨1, "Laptop", 5, some "A high-end laptop", 10,
             some "Electronics"⟩ : Item),
       ⟨[⟨1, "Laptop", 5, some "A high-end laptop", 10,
          some "Electronics"⟩], sampleStore.users⟩) ∧
    get_item_by_id (update_item sampleStore 1 payloadA).2 1 =
      some ⟨1, "Laptop", 5, some "A high-end laptop", 10,
            some "Electronics"⟩ :=
  spec_C7 sampleStore 1 payloadA ⟨1, "Laptop", 5, none, 10, none⟩ rfl

/-- C8 as stated is false: `update_item` has no exception handler, so
a backend (SQLAlchemy) fault during it propagates to the caller as the
raw exception, not as a typed `HTTPException`. -/
theorem spec_C8_counterexample :
    (update_itemF true emptyStore 1 witnessPayload).1 =
      .error (.backend sqlErr) ∧
    Failure.typed (.backend sqlErr) = false :=
  ⟨rfl, rfl⟩

/-- C8 amended: only the operations whose bodies sit in a
`try`/`except SQLAlchemyError` block — `create_item`, `get_all_items`
and `create_user` — degrade a backend fault to a typed
`HTTPException(500)`; `get_item`, `update_item`, `delete_item` and
`clear_data` propagate the raw backend exception. -/
theorem spec_C8_amended (s : StoreState) (p : ItemSchema)
    (u : UserSchema) (hash : String → String) (i : Int) :
    ((create_itemF true s p).1 =
        .error (.http 500 ("Error creating item: " ++ sqlErr)) ∧
     get_all_itemsF true s =
        .error (.http 500 ("Database error: " ++ sqlErr)) ∧
     (create_userF true hash s u).1 =
        .error (.http 500 "Could not create user")) ∧
    (get_itemF true s i = .error (.backend sqlErr) ∧
     (update_itemF true s i p).1 = .error (.backend sqlErr) ∧
     (delete_itemF true s i).1 = .error (.backend sqlErr) ∧
     (clear_dataF true s).1 = .error (.backend sqlErr)) :=
  ⟨⟨rfl, rfl, rfl⟩, rfl, rfl, rfl, rfl⟩

/-- C10: `get_item` never returns a None value — every outcome is
either the 404 `HTTPException` or an actual item — so the falsy-value
branches after it (the trailing raise in `delete_item` and the
`if not item` raise in the GET route) are never taken: whenever
`get_item` succeeds, `delete_item` returns the deleted record and the
route returns the item. -/
theorem spec_C10 (s : StoreState) (i : Int) :
    (∀ v, get_item s i = .ok v → ∃ it, v = some it) ∧
    (∀ it, get_item s i = .ok (some it) →
      (delete_item s i).1 = .ok (some it) ∧
      get_item_route s i = .ok it) := by
  constructor
  · intro v hv
    unfold get_item at hv
    cases hfind : s.findItem i with
    | none => simp [hfind] at hv
    | some it =>
        simp only [hfind, Option.isNone_some, Bool.false_eq_true,
          if_false, Except.ok.injEq] at hv
        exact ⟨it, hv.symm⟩
  · intro it hit
    constructor
    · simp [delete_item, hit]
    · simp [get_item_route, hit]

/-- Closed instance of `spec_C10`: on the sample store, `get_item 1`
succeeds, `delete_item 1` returns the record, and the GET route
returns it. -/
theorem spec_C10_witness :
    (delete_item sampleStore 1).1 =
      .ok (some ⟨1, "Laptop", 5, none, 10, none⟩) ∧
    get_item_route sampleStore 1 =
      .ok ⟨1, "Laptop", 5, none, 10, none⟩ :=
  (spec_C10 sampleStore 1).2 ⟨1, "Laptop", 5, none, 10, none⟩ rfl

theorem create_item_preserves (s : StoreState) (p : ItemSchema)
    (hs : itemsInvariant s) (hp : p.okFields) :
    itemsInvariant (create_item s p).2 := by
  unfold itemsInvariant at hs ⊢
  cases hid : p.id with
  | some i =>
      simp only [create_item, hid]
      split
      · exact hs
      · intro x hx
        rcases List.mem_append.mp hx with hx | hx
        · exact hs x hx
        · rw [List.mem_singleton.mp hx]
          exact ⟨hp.1, hp.2⟩
  | none =>
      simp only [create_item, hid]
      intro x hx
      rcases List.mem_append.mp hx with hx | hx
      · exact hs x hx
      · rw [List.mem_singleton.mp hx]
        exact ⟨hp.1, hp.2⟩

theorem update_item_preserves (s : StoreState) (i : Int)
    (p : ItemSchema) (hs : itemsInvariant s) (hp : p.okFields) :
    itemsInvariant (update_item s i p).2 := by
  unfold itemsInvariant at hs ⊢
  cases hfound : get_item_by_id s i with
  | none => simp only [update_item, hfound]; exact hs
  | some it =>
      simp only [update_item, hfound]
      intro x hx
      rcases List.mem_map.mp hx with ⟨y, hy, hfy⟩
      rw [← hfy]
      by_cases hc : (y.id == it.id) = true
      · rw [if_pos hc]
        exact ⟨hp.1, hp.2⟩
      · rw [if_neg hc]
        exact hs y hy

/-- C9: starting from any store satisfying the invariant, any sequence
of `create_item` and `update_item` calls whose payloads pass the
schema validation leaves every persisted item with `price > 0` and
`stock >= 0`. -/
theorem spec_C9 (ops : List Op) :
    ∀ s : StoreState, itemsInvariant s →
    (∀ op ∈ ops, op.okFields) → itemsInvariant (applyOps s ops) := by
  induction ops with
  | nil => intro s hs _; exact hs
  | cons op rest ih =>
      intro s hs hops
      have hop := hops op (List.mem_cons_self op rest)
      have hrest : ∀ o ∈ rest, o.okFields :=
        fun o ho => hops o (List.mem_cons_of_mem _ ho)
      unfold applyOps
      simp only [List.foldl_cons]
      refine ih (applyOp s op) ?_ hrest
      cases op with
      | createI p => exact create_item_preserves s p hs hop
      | updateI j p => exact update_item_preserves s j p hs hop

/-- Closed instance of `spec_C9`: a create followed by an update of
the created row, from the empty store, keeps the invariant. -/
theorem spec_C9_witness :
    itemsInvariant
      (applyOps emptyStore [.createI witnessPayload, .updateI 1 payloadA]) :=
  spec_C9 [.createI witnessPayload, .updateI 1 payloadA] emptyStore
    (by intro it hit; cases hit)
    (by
      intro op hop
      rcases List.mem_cons.mp hop with h | h
      · rw [h]; exact ⟨by norm_num [witnessPayload], by norm_num [witnessPayload]⟩
      · rcases List.mem_singleton.mp h with h'
        rw [h']
        exact ⟨by norm_num [payloadA], by norm_num [payloadA]⟩)

end Inventory
